import Mathlib

/-!
Shallow embedding of the RNTuple view layer (`tree/ntuple/v7/inc/ROOT/RNTupleView.hxx`):
the index-range classes `RNTupleGlobalRange` and `RNTupleClusterRange` with their
forward iterators, the typed view `RNTupleView<T>`, the type-erased view
`RNTupleView<void>`, and `RNTupleCollectionView`.

Machine integers: `NTupleSize_t` and the cluster-local offsets are 64-bit unsigned
integers; they are modelled as `Nat`, with wrap-around (`% 2 ^ 64`) made explicit at
every increment and addition the source performs on them.

External collaborators of the header (`RField`, `RFieldBase::RValue`, `RClusterIndex`
from `RNTupleUtil.hxx`, the descriptor and the page source) are not part of the
provided sources; the definitions modelling them carry a doc comment starting with
"Modelled from the spec:".
-/

/-- Modulus of the 64-bit unsigned integer type underlying `NTupleSize_t` and the
cluster-local offsets (`ClusterSize_t::ValueType`). -/
def U64 : Nat := 2 ^ 64

/-- Advance of `RNTupleGlobalRange::RIterator::operator++`: `fIndex++` on a 64-bit
unsigned index. -/
def iterSucc64 (i : Nat) : Nat := (i + 1) % U64

/-- Modelled from the spec: `RClusterIndex` (from `RNTupleUtil.hxx`, a collaborator
header not among the provided sources) is the pair `(ClusterId, offset)` of a
cluster-local index. -/
structure RClusterIndex where
  clusterId : Nat
  index : Nat
deriving DecidableEq, Repr

/-- Modelled from the spec: `RClusterIndex::operator++` advances the offset within the
same cluster (a cluster-local sequence "never crosses a cluster boundary"); the offset
is a 64-bit unsigned integer. -/
def RClusterIndex.succ (c : RClusterIndex) : RClusterIndex :=
  ⟨c.clusterId, (c.index + 1) % U64⟩

/-- The `[fStart, fEnd)` value object of `RNTupleGlobalRange`. Its constructor only
stores the two bounds; it performs no storage access. -/
structure RNTupleGlobalRange where
  fStart : Nat
  fEnd : Nat
deriving DecidableEq, Repr

/-- Source `RNTupleGlobalRange::begin()`: an iterator positioned at `fStart` (the iterator
state is just its `fIndex`). -/
def RNTupleGlobalRange.beginIdx (r : RNTupleGlobalRange) : Nat := r.fStart

/-- Source `RNTupleGlobalRange::end()`: an iterator positioned at `fEnd`. -/
def RNTupleGlobalRange.endIdx (r : RNTupleGlobalRange) : Nat := r.fEnd

/-- The standard forward-iteration loop `for (it = b; it != e; ++it) yield *it` over
the global-range iterator. Iterator equality compares `fIndex` only, exactly as
`RIterator::operator==`. The `fuel` argument only makes the recursion structurally
terminating in Lean; the loop itself stops on iterator equality. -/
def iterGlobalList : Nat → Nat → Nat → List Nat
  | 0, _, _ => []
  | fuel + 1, i, e => if i = e then [] else i :: iterGlobalList fuel (iterSucc64 i) e

/-- Iterating a global range from `begin()` until `end()`. -/
def RNTupleGlobalRange.toListFuel (r : RNTupleGlobalRange) (fuel : Nat) : List Nat :=
  iterGlobalList fuel r.beginIdx r.endIdx

/-- The `(fClusterId, fStart, fEnd)` value object of `RNTupleClusterRange`. Its
constructor only stores the three members; it performs no storage access. -/
structure RNTupleClusterRange where
  fClusterId : Nat
  fStart : Nat
  fEnd : Nat
deriving DecidableEq, Repr

/-- Source `RNTupleClusterRange::begin()`: an iterator holding `RClusterIndex(fClusterId, fStart)`. -/
def RNTupleClusterRange.beginIdx (r : RNTupleClusterRange) : RClusterIndex :=
  ⟨r.fClusterId, r.fStart⟩

/-- Source `RNTupleClusterRange::end()`: an iterator holding `RClusterIndex(fClusterId, fEnd)`. -/
def RNTupleClusterRange.endIdx (r : RNTupleClusterRange) : RClusterIndex :=
  ⟨r.fClusterId, r.fEnd⟩

/-- Forward iteration over the cluster-range iterator; equality compares the full
`RClusterIndex` as `RIterator::operator==` does, advancing with `fIndex++`. -/
def iterClusterList : Nat → RClusterIndex → RClusterIndex → List RClusterIndex
  | 0, _, _ => []
  | fuel + 1, i, e => if i = e then [] else i :: iterClusterList fuel i.succ e

/-- Iterating a cluster range from `begin()` until `end()`. -/
def RNTupleClusterRange.toListFuel (r : RNTupleClusterRange) (fuel : Nat) : List RClusterIndex :=
  iterClusterList fuel r.beginIdx r.endIdx

/- Iteration lemmas shared by the range claims. -/

theorem iterSucc64_eq_succ {i : Nat} (h : i + 1 < U64) : iterSucc64 i = i + 1 := by
  unfold iterSucc64
  exact Nat.mod_eq_of_lt h

theorem iterGlobalList_eq_range' (fuel s e : Nat) (hse : s ≤ e) (he : e < U64)
    (hf : e - s ≤ fuel) : iterGlobalList fuel s e = List.range' s (e - s) := by
  induction fuel generalizing s with
  | zero =>
    have h0 : e - s = 0 := Nat.le_zero.mp hf
    rw [h0]
    rfl
  | succ fuel ih =>
    by_cases h : s = e
    · subst h
      simp [iterGlobalList, Nat.sub_self]
    · have hslt : s < e := lt_of_le_of_ne hse h
      have hs1 : s + 1 ≤ e := hslt
      have hstep : iterSucc64 s = s + 1 :=
        iterSucc64_eq_succ (lt_of_le_of_lt hs1 he)
      have hsub : e - s = (e - (s + 1)) + 1 := by omega
      rw [iterGlobalList, if_neg h, hstep, ih (s + 1) hs1 (by omega), hsub,
        List.range'_succ]

theorem iterClusterList_eq_map_range' (fuel c s e : Nat) (hse : s ≤ e) (he : e < U64)
    (hf : e - s ≤ fuel) :
    iterClusterList fuel ⟨c, s⟩ ⟨c, e⟩ =
      (List.range' s (e - s)).map (fun k => RClusterIndex.mk c k) := by
  induction fuel generalizing s with
  | zero =>
    have h0 : e - s = 0 := Nat.le_zero.mp hf
    rw [h0]
    rfl
  | succ fuel ih =>
    by_cases h : s = e
    · subst h
      simp [iterClusterList, Nat.sub_self]
    · have hslt : s < e := lt_of_le_of_ne hse h
      have hs1 : s + 1 ≤ e := hslt
      have hstep : (RClusterIndex.mk c s).succ = RClusterIndex.mk c (s + 1) := by
        unfold RClusterIndex.succ
        simp [Nat.mod_eq_of_lt (lt_of_le_of_lt hs1 he)]
      have hne : (RClusterIndex.mk c s) ≠ (RClusterIndex.mk c e) := by
        simp [h]
      have hsub : e - s = (e - (s + 1)) + 1 := by omega
      rw [iterClusterList, if_neg hne, hstep, ih (s + 1) hs1 (by omega), hsub,
        List.range'_succ, List.map_cons]

/- View construction (RNTupleView<T> and RNTupleView<void> constructors). -/

/-- The error kinds surfaced by this layer (`RException` payloads): the
"view disallowed" construction failure, the "no field named ..." resolution
failure, and out-of-bounds access. -/
inductive ViewError where
  | incompatibleView (msg : String)
  | fieldNotFound (msg : String)
  | outOfRange
deriving DecidableEq, Repr

/-- The observable actions a view constructor performs, in source order: resolving the
field name from the descriptor (typed view), creating the field dynamically from the
descriptor (void view), creating the scratch value, setting the on-disk id, and
connecting the field to the page source. -/
inductive CtorStep where
  | resolveFieldName
  | createField
  | createValue
  | setOnDiskId
  | connectPageSource
deriving DecidableEq, Repr

/-- Modelled from the spec: the slice of the field object (`RField`, a collaborator not
among the provided sources) that view construction consults — its name, whether
`GetTraits()` has `kTraitMappable` set, and how many post-decode (read) callbacks are
registered. -/
structure RFieldModel where
  fieldName : String
  traitsMappable : Bool
  numReadCallbacks : Nat
deriving DecidableEq, Repr

/-- Modelled from the spec: `RFieldBase::HasReadCallbacks()` — whether at least one
post-decode callback is registered. -/
def RFieldModel.hasReadCallbacks (f : RFieldModel) : Bool :=
  f.numReadCallbacks != 0

/-- The message of the `R__FAIL` thrown by the `RNTupleView<T>` constructor. -/
def viewDisallowedMsg : String :=
  "view disallowed on field with mappable type and read callback"

/-- The `RNTupleView<T>` constructor: it resolves the field name, creates the scratch
value, sets the on-disk id, connects the field to the page source, and only then checks
`(GetTraits() & kTraitMappable) && HasReadCallbacks()`, throwing "view disallowed" if
both hold. The first component lists the actions completed before the constructor
returns or throws; the second is the error thrown, if any. -/
def rntupleViewConstruct (f : RFieldModel) : List CtorStep × Option ViewError :=
  ([CtorStep.resolveFieldName, CtorStep.createValue, CtorStep.setOnDiskId,
    CtorStep.connectPageSource],
   if f.traitsMappable && f.hasReadCallbacks then
     some (ViewError.incompatibleView viewDisallowedMsg)
   else
     none)

/-- The `RNTupleView<void>` constructor: it creates the field from the descriptor,
creates the scratch value, sets the on-disk id and connects the field to the page
source; it performs no mappable/read-callback check and never throws. -/
def rntupleVoidViewConstruct (_f : RFieldModel) : List CtorStep × Option ViewError :=
  ([CtorStep.createField, CtorStep.createValue, CtorStep.setOnDiskId,
    CtorStep.connectPageSource],
   none)

/- Name resolution (RNTupleCollectionView::GetView / GetCollectionView). -/

/-- Modelled from the spec: the metadata snapshot (`RNTupleDescriptor`, a collaborator
not among the provided sources) — `FindFieldId(name, parentId)` returning `none` for
`kInvalidDescriptorId`, and `GetName()`, the dataset display name. -/
structure RNTupleDescriptorModel where
  findFieldId : String → Nat → Option Nat
  ntupleName : String

/-- Modelled from the spec: the page source — it exposes the descriptor and, through
the descriptor's field factory, a field model per on-disk field id. -/
structure RPageSourceModel where
  desc : RNTupleDescriptorModel
  fieldOf : Nat → RFieldModel

/-- The error message built by `GetView`/`GetCollectionView` when the name does not
resolve: `"no field named '" + name + "' in RNTuple '" + GetName() + "'"`. -/
def fieldNotFoundMsg (fieldName ntupleName : String) : String :=
  "no field named '" ++ fieldName ++ "' in RNTuple '" ++ ntupleName ++ "'"

/-- Source `RNTupleCollectionView::GetView<T>(fieldName)`: look the name up under the
collection's field id; on `kInvalidDescriptorId` throw the "no field named" error
without running any view constructor (empty action list), otherwise construct an
`RNTupleView<T>` over the resolved id. -/
def RNTupleCollectionView.getView (src : RPageSourceModel) (collectionFieldId : Nat)
    (fieldName : String) : List CtorStep × Option ViewError :=
  match src.desc.findFieldId fieldName collectionFieldId with
  | none =>
    ([], some (ViewError.fieldNotFound (fieldNotFoundMsg fieldName src.desc.ntupleName)))
  | some fid => rntupleViewConstruct (src.fieldOf fid)

/-- Source `RNTupleCollectionView::GetCollectionView(fieldName)`: same resolution and failure
as `GetView`, then constructs an `RNTupleCollectionView` (whose base-class constructor
is the `RNTupleView<ClusterSize_t>` constructor). -/
def RNTupleCollectionView.getCollectionView (src : RPageSourceModel)
    (collectionFieldId : Nat) (fieldName : String) : List CtorStep × Option ViewError :=
  match src.desc.findFieldId fieldName collectionFieldId with
  | none =>
    ([], some (ViewError.fieldNotFound (fieldNotFoundMsg fieldName src.desc.ntupleName)))
  | some fid => rntupleViewConstruct (src.fieldOf fid)

/- Indexed access (RNTupleView<T>::operator()). -/

/-- Modelled from the spec: the per-field data the access path sees — the field's
current element count and the element contents `v0..vN-1`. -/
structure RFieldData (α : Type) where
  nElements : Nat
  values : Nat → α

/-- Modelled from the spec: `RFieldBase::RValue::Read` — a binary read of element `i`
into the holder, which succeeds with the element's content for an in-bounds index and
reports OutOfRange past the field's element count. -/
def RFieldData.readElem {α : Type} (fd : RFieldData α) (i : Nat) : Except ViewError α :=
  if i < fd.nElements then Except.ok (fd.values i) else Except.error ViewError.outOfRange

/-- Modelled from the spec: `RField::Map` — zero-copy access to element `i` in the
decoded page, succeeding with the element's content for an in-bounds index and
reporting OutOfRange past the field's element count. -/
def RFieldData.mapElem {α : Type} (fd : RFieldData α) (i : Nat) : Except ViewError α :=
  if i < fd.nElements then Except.ok (fd.values i) else Except.error ViewError.outOfRange

/-- The mutable state of an `RNTupleView<T>`: its field and the single re-used scratch
holder `fValue` (`none` until the first successful read fills it). -/
structure RNTupleViewState (α : Type) where
  field : RFieldData α
  fValue : Option α

/-- Source `RNTupleView<T>::operator()(index)` on the non-mappable path:
`fValue.Read(index); return fValue.GetRef<T>()` — on success the scratch holder is
overwritten with the element just read and the returned reference points into that
holder; on failure the holder is left unchanged. Returns the updated view state
together with the content the returned reference exposes. -/
def RNTupleViewState.accessNonMappable {α : Type} (v : RNTupleViewState α) (i : Nat) :
    Except ViewError (RNTupleViewState α × α) :=
  match v.field.readElem i with
  | Except.ok x => Except.ok ({ v with fValue := some x }, x)
  | Except.error e => Except.error e

/-- Source `RNTupleView<T>::operator()(index)` on the mappable path: `return *fField.Map(index)`
— the scratch holder is not touched and the reference points into the page buffer. -/
def RNTupleViewState.accessMappable {α : Type} (v : RNTupleViewState α) (i : Nat) :
    Except ViewError (RNTupleViewState α × α) :=
  match v.field.mapElem i with
  | Except.ok x => Except.ok (v, x)
  | Except.error e => Except.error e

/- Collection ranges (RNTupleCollectionView). -/

/-- Modelled from the spec: the collection field's `GetCollectionInfo` operation, in
its global-index and cluster-index overloads — for a collection instance it reports
the child-start `RClusterIndex` and the child count (`ClusterSize_t`). -/
structure RCollectionFieldModel where
  infoGlobal : Nat → RClusterIndex × Nat
  infoCluster : RClusterIndex → RClusterIndex × Nat

/-- Source `RNTupleCollectionView::GetCollectionRange(globalIndex)`: ask `GetCollectionInfo`
for `(collectionStart, size)` and package
`RNTupleClusterRange(collectionStart.GetClusterId(), collectionStart.GetIndex(),
collectionStart.GetIndex() + size)`; the upper bound is 64-bit unsigned arithmetic. -/
def RNTupleCollectionView.getCollectionRange (f : RCollectionFieldModel)
    (globalIndex : Nat) : RNTupleClusterRange :=
  let info := f.infoGlobal globalIndex
  ⟨info.1.clusterId, info.1.index, (info.1.index + info.2) % U64⟩

/-- Source `RNTupleCollectionView::GetCollectionRange(clusterIndex)`: the cluster-local
overload, identical packaging over the cluster-index `GetCollectionInfo`. -/
def RNTupleCollectionView.getCollectionRangeAt (f : RCollectionFieldModel)
    (clusterIndex : RClusterIndex) : RNTupleClusterRange :=
  let info := f.infoCluster clusterIndex
  ⟨info.1.clusterId, info.1.index, (info.1.index + info.2) % U64⟩

/-- Source `RNTupleCollectionView::operator()(globalIndex)`: ask `GetCollectionInfo` and
return the instance's element count `size`. -/
def RNTupleCollectionView.applySize (f : RCollectionFieldModel) (globalIndex : Nat) :
    Nat :=
  (f.infoGlobal globalIndex).2

/-- Source `RNTupleCollectionView::operator()(clusterIndex)`: the cluster-local overload. -/
def RNTupleCollectionView.applySizeAt (f : RCollectionFieldModel)
    (clusterIndex : RClusterIndex) : Nat :=
  (f.infoCluster clusterIndex).2

/- Helper lemmas shared by the claims below. -/

theorem strAppendAssoc (a b c : String) : (a ++ b) ++ c = a ++ (b ++ c) := by
  rcases a with ⟨da⟩
  rcases b with ⟨db⟩
  rcases c with ⟨dc⟩
  show String.mk ((da ++ db) ++ dc) = String.mk (da ++ (db ++ dc))
  rw [List.append_assoc]

theorem clusterRange_length (cid s sz fuel : Nat) (h : s + sz < U64) (hf : sz ≤ fuel) :
    ((RNTupleClusterRange.mk cid s (s + sz)).toListFuel fuel).length = sz := by
  unfold RNTupleClusterRange.toListFuel RNTupleClusterRange.beginIdx RNTupleClusterRange.endIdx
  rw [iterClusterList_eq_map_range' fuel cid s (s + sz) (Nat.le_add_right s sz) h
    (by omega)]
  simp

/-- Claim C6: for all `start <= end` (64-bit representable) and any sufficient fuel,
iterating `RNTupleGlobalRange(start, end)` from `begin()` to `end()` yields exactly the
sequence `start, start+1, ..., end-1` of length `end - start`, and two iterations of
the same range object (any sufficient fuels) produce the identical sequence. The range
itself is a pure value: its constructor only stores the two bounds. -/
theorem C6_global_range_iteration (s e fuel1 fuel2 : Nat) (hse : s ≤ e) (he : e < U64)
    (hf1 : e - s ≤ fuel1) (hf2 : e - s ≤ fuel2) :
    (RNTupleGlobalRange.mk s e).toListFuel fuel1 = List.range' s (e - s) ∧
    ((RNTupleGlobalRange.mk s e).toListFuel fuel1).length = e - s ∧
    (RNTupleGlobalRange.mk s e).toListFuel fuel1 =
      (RNTupleGlobalRange.mk s e).toListFuel fuel2 := by
  unfold RNTupleGlobalRange.toListFuel RNTupleGlobalRange.beginIdx RNTupleGlobalRange.endIdx
  rw [iterGlobalList_eq_range' fuel1 s e hse he hf1,
    iterGlobalList_eq_range' fuel2 s e hse he hf2]
  refine ⟨rfl, ?_, rfl⟩
  simp

/-- Claim C6 witness: the range `[2, 5)` iterates to `2, 3, 4`. -/
theorem C6_witness :
    (RNTupleGlobalRange.mk 2 5).toListFuel 3 = List.range' 2 3 ∧
    ((RNTupleGlobalRange.mk 2 5).toListFuel 3).length = 3 ∧
    (RNTupleGlobalRange.mk 2 5).toListFuel 3 = (RNTupleGlobalRange.mk 2 5).toListFuel 4 :=
  C6_global_range_iteration 2 5 3 4 (by decide) (by decide) (by decide) (by decide)

/-- Claim C7: for all `start <= end` (64-bit representable) and a fixed cluster id `c`,
iterating `RNTupleClusterRange(c, start, end)` yields exactly
`(c, start), (c, start+1), ..., (c, end-1)`, and every yielded cluster-local index
carries the same cluster id `c` (advancing never crosses a cluster boundary). -/
theorem C7_cluster_range_iteration (c s e fuel : Nat) (hse : s ≤ e) (he : e < U64)
    (hf : e - s ≤ fuel) :
    (RNTupleClusterRange.mk c s e).toListFuel fuel =
      (List.range' s (e - s)).map (fun k => RClusterIndex.mk c k) ∧
    ∀ x ∈ (RNTupleClusterRange.mk c s e).toListFuel fuel, x.clusterId = c := by
  unfold RNTupleClusterRange.toListFuel RNTupleClusterRange.beginIdx RNTupleClusterRange.endIdx
  rw [iterClusterList_eq_map_range' fuel c s e hse he hf]
  refine ⟨rfl, ?_⟩
  intro x hx
  rcases List.mem_map.mp hx with ⟨k, _, rfl⟩
  rfl

/-- Claim C7 witness: the range over cluster 7 and offsets `[1, 3)` iterates to
`(7, 1), (7, 2)`. -/
theorem C7_witness :
    (RNTupleClusterRange.mk 7 1 3).toListFuel 2 =
      (List.range' 1 2).map (fun k => RClusterIndex.mk 7 k) :=
  (C7_cluster_range_iteration 7 1 3 2 (by decide) (by decide) (by decide)).1

/-- Claim C10: for every start value `s` (and cluster id `c`), the degenerate ranges
`RNTupleGlobalRange(s, s)` and `RNTupleClusterRange(c, s, s)` have `begin()` equal to
`end()`, so iterating them (any fuel) yields the empty sequence. -/
theorem C10_degenerate_ranges (s c fuel : Nat) :
    (RNTupleGlobalRange.mk s s).beginIdx = (RNTupleGlobalRange.mk s s).endIdx ∧
    (RNTupleGlobalRange.mk s s).toListFuel fuel = [] ∧
    (RNTupleClusterRange.mk c s s).beginIdx = (RNTupleClusterRange.mk c s s).endIdx ∧
    (RNTupleClusterRange.mk c s s).toListFuel fuel = [] := by
  refine ⟨rfl, ?_, rfl, ?_⟩
  · cases fuel with
    | zero => rfl
    | succ n =>
      simp [RNTupleGlobalRange.toListFuel, RNTupleGlobalRange.beginIdx,
        RNTupleGlobalRange.endIdx, iterGlobalList]
  · cases fuel with
    | zero => rfl
    | succ n =>
      simp [RNTupleClusterRange.toListFuel, RNTupleClusterRange.beginIdx,
        RNTupleClusterRange.endIdx, iterClusterList]

/-- Claim C1 counterexample: over a zero-copy-mappable field with one registered read
callback, the `RNTupleView<T>` constructor does throw the "view disallowed"
IncompatibleView error — but the actions completed before the throw include
`connectPageSource`: the field is connected to the page source's storage before the
check runs, so the failure is not raised "before any storage connection is
attempted". -/
theorem C1_counterexample :
    (rntupleViewConstruct (RFieldModel.mk "pt" true 1)).2 =
      some (ViewError.incompatibleView viewDisallowedMsg) ∧
    CtorStep.connectPageSource ∈ (rntupleViewConstruct (RFieldModel.mk "pt" true 1)).1 := by
  refine ⟨rfl, ?_⟩
  simp [rntupleViewConstruct]

/-- Claim C1 (amended): constructing a typed view over a zero-copy-mappable field with
a registered read callback fails with the IncompatibleView ("view disallowed") error at
construction time, but only after the field has been connected to the page source (the
check follows the storage connection in the constructor body); constructing over a
mappable field with zero registered callbacks succeeds. -/
theorem C1_typed_view_mappable_callback_check (f : RFieldModel)
    (hm : f.traitsMappable = true) :
    (f.numReadCallbacks ≠ 0 →
      (rntupleViewConstruct f).2 = some (ViewError.incompatibleView viewDisallowedMsg) ∧
      CtorStep.connectPageSource ∈ (rntupleViewConstruct f).1) ∧
    (f.numReadCallbacks = 0 → (rntupleViewConstruct f).2 = none) := by
  constructor
  · intro hcb
    constructor
    · simp [rntupleViewConstruct, RFieldModel.hasReadCallbacks, hm, hcb]
    · simp [rntupleViewConstruct]
  · intro hcb
    simp [rntupleViewConstruct, RFieldModel.hasReadCallbacks, hcb]

/-- Claim C1 witness: a mappable field with zero registered callbacks constructs
without error. -/
theorem C1_witness :
    (rntupleViewConstruct (RFieldModel.mk "pt" true 0)).2 = none :=
  (C1_typed_view_mappable_callback_check (RFieldModel.mk "pt" true 0) rfl).2 rfl

/-- Claim C2 counterexample: the `RNTupleView<void>` constructor performs no
mappable/read-callback check — over a zero-copy-mappable field with one registered
read callback it succeeds (throws nothing), refuting that the erased view fails with
IncompatibleView there. -/
theorem C2_counterexample :
    (rntupleVoidViewConstruct (RFieldModel.mk "pt" true 1)).2 = none ∧
    ¬(rntupleVoidViewConstruct (RFieldModel.mk "pt" true 1)).2 =
        some (ViewError.incompatibleView viewDisallowedMsg) := by
  refine ⟨rfl, ?_⟩
  simp [rntupleVoidViewConstruct]

/-- Claim C2 (amended): constructing an erased view (`RNTupleView<void>`) never fails
with IncompatibleView — its constructor creates the field from the descriptor, creates
the scratch value, sets the on-disk id and connects to the page source without any
mappable/read-callback check (the check exists only in the typed `RNTupleView<T>`
constructor). -/
theorem C2_void_view_has_no_check (f : RFieldModel) :
    (rntupleVoidViewConstruct f).2 = none ∧
    (rntupleVoidViewConstruct f).1 =
      [CtorStep.createField, CtorStep.createValue, CtorStep.setOnDiskId,
       CtorStep.connectPageSource] :=
  ⟨rfl, rfl⟩

/-- Claim C3: for every field name that does not resolve under the collection view's
scoping field identifier, `GetView<T>` and `GetCollectionView` fail with a
FieldNotFound error raised at resolution time — no view-constructor action runs (the
action list is empty) — and the error message contains both the requested field name
and the dataset's display name. -/
theorem C3_field_not_found (src : RPageSourceModel) (cfid : Nat) (name : String)
    (h : src.desc.findFieldId name cfid = none) :
    RNTupleCollectionView.getView src cfid name =
      ([], some (ViewError.fieldNotFound (fieldNotFoundMsg name src.desc.ntupleName))) ∧
    RNTupleCollectionView.getCollectionView src cfid name =
      ([], some (ViewError.fieldNotFound (fieldNotFoundMsg name src.desc.ntupleName))) ∧
    (∃ a b, fieldNotFoundMsg name src.desc.ntupleName = a ++ name ++ b) ∧
    (∃ a b, fieldNotFoundMsg name src.desc.ntupleName = a ++ src.desc.ntupleName ++ b) := by
  refine ⟨?_, ?_, ?_, ?_⟩
  · unfold RNTupleCollectionView.getView
    rw [h]
  · unfold RNTupleCollectionView.getCollectionView
    rw [h]
  · refine ⟨"no field named '", "' in RNTuple '" ++ src.desc.ntupleName ++ "'", ?_⟩
    simp only [fieldNotFoundMsg, strAppendAssoc]
  · exact ⟨"no field named '" ++ name ++ "' in RNTuple '", "'", rfl⟩

/-- Claim C3 witness: resolving "missing" on a descriptor where nothing resolves fails
with the FieldNotFound error naming "missing" and the dataset "ntpl". -/
theorem C3_witness :
    RNTupleCollectionView.getView
      (RPageSourceModel.mk (RNTupleDescriptorModel.mk (fun _ _ => none) "ntpl")
        (fun _ => RFieldModel.mk "x" false 0)) 7 "missing" =
      ([], some (ViewError.fieldNotFound (fieldNotFoundMsg "missing" "ntpl"))) :=
  (C3_field_not_found
    (RPageSourceModel.mk (RNTupleDescriptorModel.mk (fun _ _ => none) "ntpl")
      (fun _ => RFieldModel.mk "x" false 0)) 7 "missing" rfl).1

/-- A concrete collection field used to evaluate the collection-view operations: every
instance reports children starting at cluster-local index `(0, 10)` with 3 children
(global overload), and at `(1, 4)` with 2 children (cluster overload). -/
def sampleCollectionField : RCollectionFieldModel :=
  ⟨fun _ => (⟨0, 10⟩, 3), fun _ => (⟨1, 4⟩, 2)⟩

/-- Claim C4: for every index (global or cluster-local) of a collection field,
`GetCollectionRange` returns the range `[childStart, childStart + count)` whose cluster
id equals the cluster id of the child-start index reported by `GetCollectionInfo` and
whose iteration length equals the reported child count. -/
theorem C4_collection_range (f : RCollectionFieldModel) (i : Nat) (ci : RClusterIndex)
    (fuel1 fuel2 : Nat)
    (h1 : (f.infoGlobal i).1.index + (f.infoGlobal i).2 < U64)
    (hf1 : (f.infoGlobal i).2 ≤ fuel1)
    (h2 : (f.infoCluster ci).1.index + (f.infoCluster ci).2 < U64)
    (hf2 : (f.infoCluster ci).2 ≤ fuel2) :
    (RNTupleCollectionView.getCollectionRange f i).fClusterId =
      (f.infoGlobal i).1.clusterId ∧
    (RNTupleCollectionView.getCollectionRange f i).fStart = (f.infoGlobal i).1.index ∧
    (RNTupleCollectionView.getCollectionRange f i).fEnd =
      (f.infoGlobal i).1.index + (f.infoGlobal i).2 ∧
    ((RNTupleCollectionView.getCollectionRange f i).toListFuel fuel1).length =
      (f.infoGlobal i).2 ∧
    (RNTupleCollectionView.getCollectionRangeAt f ci).fClusterId =
      (f.infoCluster ci).1.clusterId ∧
    (RNTupleCollectionView.getCollectionRangeAt f ci).fStart =
      (f.infoCluster ci).1.index ∧
    (RNTupleCollectionView.getCollectionRangeAt f ci).fEnd =
      (f.infoCluster ci).1.index + (f.infoCluster ci).2 ∧
    ((RNTupleCollectionView.getCollectionRangeAt f ci).toListFuel fuel2).length =
      (f.infoCluster ci).2 := by
  have hg : RNTupleCollectionView.getCollectionRange f i =
      RNTupleClusterRange.mk (f.infoGlobal i).1.clusterId (f.infoGlobal i).1.index
        ((f.infoGlobal i).1.index + (f.infoGlobal i).2) := by
    simp only [RNTupleCollectionView.getCollectionRange]
    rw [Nat.mod_eq_of_lt h1]
  have hc : RNTupleCollectionView.getCollectionRangeAt f ci =
      RNTupleClusterRange.mk (f.infoCluster ci).1.clusterId (f.infoCluster ci).1.index
        ((f.infoCluster ci).1.index + (f.infoCluster ci).2) := by
    simp only [RNTupleCollectionView.getCollectionRangeAt]
    rw [Nat.mod_eq_of_lt h2]
  rw [hg, hc]
  exact ⟨rfl, rfl, rfl, clusterRange_length _ _ _ _ h1 hf1, rfl, rfl, rfl,
    clusterRange_length _ _ _ _ h2 hf2⟩

/-- Claim C4 witness: on the sample collection field, instance 2 yields a range over
cluster 0 starting at offset 10 whose iteration length is exactly 3. -/
theorem C4_witness :
    (RNTupleCollectionView.getCollectionRange sampleCollectionField 2).fClusterId = 0 ∧
    ((RNTupleCollectionView.getCollectionRange sampleCollectionField 2).toListFuel 3).length = 3 :=
  ⟨(C4_collection_range sampleCollectionField 2 ⟨0, 0⟩ 3 2 (by decide) (by decide)
      (by decide) (by decide)).1,
   (C4_collection_range sampleCollectionField 2 ⟨0, 0⟩ 3 2 (by decide) (by decide)
      (by decide) (by decide)).2.2.2.1⟩

/-- Claim C5: for every index (global or cluster-local) of a collection field, applying
the collection view as a function (its `operator()`, returning the instance's element
count) equals the iteration length of the `ClusterIndexRange` returned by
`GetCollectionRange` at the same index. -/
theorem C5_apply_eq_collection_range_length (f : RCollectionFieldModel) (i : Nat)
    (ci : RClusterIndex) (fuel1 fuel2 : Nat)
    (h1 : (f.infoGlobal i).1.index + (f.infoGlobal i).2 < U64)
    (hf1 : (f.infoGlobal i).2 ≤ fuel1)
    (h2 : (f.infoCluster ci).1.index + (f.infoCluster ci).2 < U64)
    (hf2 : (f.infoCluster ci).2 ≤ fuel2) :
    RNTupleCollectionView.applySize f i =
      ((RNTupleCollectionView.getCollectionRange f i).toListFuel fuel1).length ∧
    RNTupleCollectionView.applySizeAt f ci =
      ((RNTupleCollectionView.getCollectionRangeAt f ci).toListFuel fuel2).length := by
  have hg : RNTupleCollectionView.getCollectionRange f i =
      RNTupleClusterRange.mk (f.infoGlobal i).1.clusterId (f.infoGlobal i).1.index
        ((f.infoGlobal i).1.index + (f.infoGlobal i).2) := by
    simp only [RNTupleCollectionView.getCollectionRange]
    rw [Nat.mod_eq_of_lt h1]
  have hc : RNTupleCollectionView.getCollectionRangeAt f ci =
      RNTupleClusterRange.mk (f.infoCluster ci).1.clusterId (f.infoCluster ci).1.index
        ((f.infoCluster ci).1.index + (f.infoCluster ci).2) := by
    simp only [RNTupleCollectionView.getCollectionRangeAt]
    rw [Nat.mod_eq_of_lt h2]
  rw [hg, hc, clusterRange_length _ _ _ _ h1 hf1, clusterRange_length _ _ _ _ h2 hf2]
  exact ⟨rfl, rfl⟩

/-- Claim C5 witness: on the sample collection field at instance 2, `operator()`
returns 3, the iteration length of `GetCollectionRange(2)`. -/
theorem C5_witness :
    RNTupleCollectionView.applySize sampleCollectionField 2 =
      ((RNTupleCollectionView.getCollectionRange sampleCollectionField 2).toListFuel 3).length :=
  (C5_apply_eq_collection_range_length sampleCollectionField 2 ⟨0, 0⟩ 3 2 (by decide)
    (by decide) (by decide) (by decide)).1

/-- Claim C8: for a non-mappable field holding known values, `Access(i)` at an
in-bounds `i` returns a reference whose content is `values i` and overwrites the single
re-used scratch holder with it; a subsequent `Access(j)` (`j ≠ i`) on the resulting
state overwrites that same holder with `values j`, so the reference returned earlier
(which points into the holder) now exposes the newly read content. -/
theorem C8_non_mappable_scratch_overwrite (α : Type) (v : RNTupleViewState α)
    (i j : Nat) (hi : i < v.field.nElements) (hj : j < v.field.nElements)
    (_hij : j ≠ i) :
    v.accessNonMappable i =
      Except.ok ({ v with fValue := some (v.field.values i) }, v.field.values i) ∧
    ({ v with fValue := some (v.field.values i) } : RNTupleViewState α).accessNonMappable j =
      Except.ok ({ v with fValue := some (v.field.values j) }, v.field.values j) := by
  constructor
  · unfold RNTupleViewState.accessNonMappable RFieldData.readElem
    rw [if_pos hi]
  · unfold RNTupleViewState.accessNonMappable RFieldData.readElem
    rw [if_pos hj]

/-- Claim C8 witness: on a two-element field with values `k * 10`, `Access(0)` returns
content 0 and fills the scratch holder with 0. -/
theorem C8_witness :
    (RNTupleViewState.mk (RFieldData.mk 2 (fun k => k * 10)) none).accessNonMappable 0 =
      Except.ok (RNTupleViewState.mk (RFieldData.mk 2 (fun k => k * 10)) (some 0), 0) :=
  (C8_non_mappable_scratch_overwrite Nat
    (RNTupleViewState.mk (RFieldData.mk 2 (fun k => k * 10)) none) 0 1 (by decide)
    (by decide) (by decide)).1

/-- Claim C9: for every index at or past the field's element count, `Access` fails
with the OutOfRange error (a reported failure, not undefined behavior), on both the
mappable and the non-mappable path; on failure the scratch holder is untouched. -/
theorem C9_access_out_of_range (α : Type) (v : RNTupleViewState α) (i : Nat)
    (h : v.field.nElements ≤ i) :
    v.accessNonMappable i = Except.error ViewError.outOfRange ∧
    v.accessMappable i = Except.error ViewError.outOfRange := by
  have hlt : ¬i < v.field.nElements := not_lt.mpr h
  constructor
  · unfold RNTupleViewState.accessNonMappable RFieldData.readElem
    rw [if_neg hlt]
  · unfold RNTupleViewState.accessMappable RFieldData.mapElem
    rw [if_neg hlt]

/-- Claim C9 witness: on a two-element field, `Access(5)` fails with OutOfRange on the
non-mappable path. -/
theorem C9_witness :
    (RNTupleViewState.mk (RFieldData.mk 2 (fun k => k * 10)) none).accessNonMappable 5 =
      Except.error ViewError.outOfRange :=
  (C9_access_out_of_range Nat
    (RNTupleViewState.mk (RFieldData.mk 2 (fun k => k * 10)) none) 5 (by decide)).1
